import Mathlib

/-!
Verification of the selective build-and-publish pipeline of the
eboutique-microservice monorepo.  The pipeline is the GitHub Actions
workflow "Build Docker Image": a `detect-changes` job diffs two commit
references, intersects the changed paths with a fixed registry of
service directories to produce a build matrix, and a `build-and-push`
matrix job resolves each service's Dockerfile, builds with a layer
cache, and pushes two tags to DockerHub.

We embed the workflow's decision logic shallowly: shell string
operations become Lean string/list functions, the surrounding tool
behaviour (`grep`, `git diff`, `actions/cache`, `docker buildx`,
GitHub's matrix strategy) is modelled by its documented semantics.
-/

set_option autoImplicit false

namespace EboutiquePipeline

/-! ### Character-level prefix matching

`grep -q "^pat"` with a pattern consisting only of literal characters
(the registry directories contain no regex metacharacters) succeeds
exactly when some input line starts with `pat`.  We model "line starts
with `pat`" character by character. -/

/-- `listStarts pre s` is true iff the list `pre` is an initial segment
of the list `s`. -/
def listStarts : List Char → List Char → Bool
  | [], _ => true
  | _ :: _, [] => false
  | c :: cs, d :: ds => c == d && listStarts cs ds

/-- `strStarts pre s`: the string `s` begins with `pre` — the semantics
of the anchored literal grep pattern `^pre` applied to the line `s`. -/
def strStarts (pre s : String) : Bool :=
  listStarts pre.data s.data

/-! ### The fixed path registry and trigger filter (workflow lines 3-18, 40) -/

/-- The ordered list of watched service directories iterated by the
`for dir in …` loop of the `set-matrix` step (line 40). -/
def pathRegistry : List String :=
  ["src/frontend", "src/cartservice", "src/checkoutservice",
   "src/currencyservice", "src/emailservice", "src/adservice",
   "src/loadgenerator", "src/paymentservice", "src/productcatalogservice",
   "src/recommendservice", "src/shippingservice",
   "src/shoppingassistantservice"]

/-- The `on.push.paths` trigger filter (lines 5-18).  Every pattern has
the form `dir/**`, which in GitHub's path-filter glob syntax matches
exactly the paths having `dir/` as a prefix; we record those prefixes. -/
def triggerPrefixes : List String :=
  ["src/frontend/", "src/cartservice/", "src/checkoutservice/",
   "src/currencyservice/", "src/emailservice/", "src/adservice/",
   "src/loadgenerator/", "src/paymentservice/",
   "src/productcatalogservice/", "src/recommendservice/",
   "src/shippingservice/", "src/shoppingassistantservice/", "release/"]

/-- The push event fires iff some changed path matches some pattern of
the trigger filter. -/
def triggered (changed : List String) : Bool :=
  changed.any (fun p => triggerPrefixes.any (fun pre => strStarts pre p))

/-! ### Change detection and matrix construction (lines 30-54) -/

/-- `git diff --name-only base head`: the paths whose content differs
between the snapshots at the two commits.  A commit is modelled by its
snapshot, a map from path to optional file content (`none` = absent);
`files` enumerates the paths of the repository. -/
def gitDiffNameOnly (files : List String) (snapshot : String → String → Option String)
    (base head : String) : List String :=
  files.filter (fun f => snapshot base f != snapshot head f)

/-- `echo "$changed" | grep -q "^$dir/"` (line 41): some changed path
starts with the directory followed by the path separator. -/
def dirMatches (changed : List String) (dir : String) : Bool :=
  changed.any (fun p => strStarts (dir ++ "/") p)

/-- The `services` array built by the loop at lines 39-44: the registry
entries, in registry order, for which some changed path lies strictly
under the entry's directory. -/
def buildMatrix (changed : List String) : List String :=
  pathRegistry.filter (dirMatches changed)

/-- JSON fragment pushed for one matched service (line 42). -/
def serviceJson (dir : String) : String :=
  "\x7b\"service\":\"" ++ dir ++ "\"\x7d"

/-- The `matrix` string assembled at lines 48-52: `{"include":[`, then
the comma-joined service fragments when the array is non-empty, then
`]}`. -/
def matrixJson (changed : List String) : String :=
  let services := (buildMatrix changed).map serviceJson
  let m := "\x7b\"include\":["
  let m := if services.length > 0 then m ++ String.intercalate "," services else m
  m ++ "]\x7d"

/-- The `if:` guard of the `build-and-push` job (line 57): the job runs
iff the serialized matrix differs from the empty-matrix literal. -/
def buildJobRuns (changed : List String) : Bool :=
  matrixJson changed != "\x7b\"include\":[]\x7d"

/-! ### The build-and-push unit: step sequence (lines 61-113)

Each matrix entry spawns one job instance running the five steps in
order; a failing step stops that job, and the steps after it in the
same job never run. -/

/-- The steps of one `build-and-push` job instance, in source order:
checkout (line 62), buildx setup (line 65), cache restore (line 68),
DockerHub login (line 76), build-and-push (line 82). -/
inductive UnitStep where
  | checkout
  | setupBuildx
  | cacheRestore
  | dockerLogin
  | buildPush
deriving DecidableEq, Repr

/-- The step list of the `build-and-push` job, in source order. -/
def unitSteps : List UnitStep :=
  [UnitStep.checkout, UnitStep.setupBuildx, UnitStep.cacheRestore,
   UnitStep.dockerLogin, UnitStep.buildPush]

/-- Which step succeeds when the DockerHub credentials are valid or
not: only `docker/login-action` (lines 76-80) consults the registry
credentials; the other steps do not. -/
def stepOk (loginOk : Bool) : UnitStep → Bool
  | UnitStep.dockerLogin => loginOk
  | _ => true

/-- Runs a job's steps in order: each step that succeeds is followed by
the next; the first failing step is attempted and terminates the job.
Returns the list of steps that were attempted. -/
def runSteps (ok : UnitStep → Bool) : List UnitStep → List UnitStep
  | [] => []
  | s :: rest => if ok s then s :: runSteps ok rest else [s]

/-! ### Descriptor resolution (lines 92-104) -/

/-- The resolved Dockerfile location and build context of one service. -/
structure BuildDescriptor where
  dockerfilePath : String
  contextPath : String
deriving DecidableEq, Repr

/-- Lines 92-104: start from `$SERVICE/Dockerfile` with context
`$SERVICE`; if that file does not exist switch to `$SERVICE/src/Dockerfile`
with context `$SERVICE/src`; if the chosen file still does not exist the
job fails (`exit 1`), modelled as `none`.  `fe` is the file-existence
test `[ -f … ]`. -/
def resolveDescriptor (fe : String → Bool) (service : String) : Option BuildDescriptor :=
  if fe (service ++ "/Dockerfile") then
    some ⟨service ++ "/Dockerfile", service⟩
  else if fe (service ++ "/src/Dockerfile") then
    some ⟨service ++ "/src/Dockerfile", service ++ "/src"⟩
  else
    none

/-! ### Image naming (lines 88-90) -/

/-- `basename $SERVICE`: the final `/`-separated segment of the path. -/
def basename (p : String) : String :=
  match (p.data.splitOn '/').reverse with
  | [] => p
  | seg :: _ => String.mk seg

/-- `IMAGE_LATEST=$DOCKER_USER/$NAME:latest` (line 89). -/
def imageLatest (user name : String) : String :=
  user ++ "/" ++ name ++ ":latest"

/-- `IMAGE_SHA=$DOCKER_USER/$NAME:${GITHUB_SHA::7}` (line 90): the tag
suffix is the first 7 characters of the head commit reference. -/
def imageSha (user name sha : String) : String :=
  user ++ "/" ++ name ++ ":" ++ sha.take 7

/-- The two tags passed to `docker buildx build -t … -t …`
(lines 111-112), for a service path and head commit reference. -/
def imageTags (user service sha : String) : List String :=
  [imageLatest user (basename service), imageSha user (basename service) sha]

/-! ### Cache layout (lines 68-74 and 106-108) -/

/-- The contents of the two cache locations on the runner:
`/tmp/.buildx-cache` (the restore path of `actions/cache` and the
`--cache-from` source) and `/tmp/.buildx-cache-new` (the `--cache-to`
destination).  `none` means the directory is absent. -/
structure CacheFS where
  buildxCache : Option String
  buildxCacheNew : Option String
deriving DecidableEq, Repr

/-- `--cache-from=type=local,src=/tmp/.buildx-cache` (line 107). -/
def cacheFromPath : String := "/tmp/.buildx-cache"

/-- `--cache-to=type=local,dest=/tmp/.buildx-cache-new` (line 108). -/
def cacheToPath : String := "/tmp/.buildx-cache-new"

/-- `actions/cache` restore (lines 68-74): places the previously saved
cache (if any) at `/tmp/.buildx-cache`; nothing exists yet at the
staging path. -/
def cacheRestoreStep (saved : Option String) : CacheFS :=
  { buildxCache := saved, buildxCacheNew := none }

/-- The cache effect of `docker buildx build` (lines 106-113): layers
are read from the `--cache-from` source and the updated cache is
written only to the `--cache-to` destination; the source directory is
not modified. -/
def buildxBuildStep (updated : String) (fs : CacheFS) : CacheFS :=
  { fs with buildxCacheNew := some updated }

/-- The `actions/cache` post step: at job end it saves the configured
`path:` — `/tmp/.buildx-cache` (line 71) — under the job's cache key. -/
def cacheSaveStep (fs : CacheFS) : Option String :=
  fs.buildxCache

/-! ### Registry push (lines 106-113)

`docker buildx build --push` with two `-t` tags uploads the built image
and points both tags at it.  A Docker registry push re-points a tag
unconditionally: an existing tag, whatever digest it held, is
overwritten, and the push succeeds. -/

/-- Errors of the spec's Publisher taxonomy that a push could report. -/
inductive PushError where
  | pushConflict
deriving DecidableEq, Repr

/-- The registry effect of `docker buildx build --push -t latest -t sha`
(lines 106-113): both tags are set to the new image digest regardless of
the registry's previous contents, and the operation reports success. -/
def pushImage (reg : String → Option String) (latestTag shaTag digest : String) :
    Except PushError (String → Option String) :=
  Except.ok (fun t => if t = latestTag ∨ t = shaTag then some digest else reg t)

/-! ### Matrix strategy and orchestration (lines 55-60)

The `strategy:` block of `build-and-push` (lines 59-60) sets only
`matrix:`.  GitHub Actions defaults `fail-fast` to `true` when it is
not set: as soon as one matrix job fails, the remaining in-progress and
queued jobs of the matrix are cancelled. -/

/-- The workflow's effective fail-fast setting: unset in the `strategy`
block, hence GitHub's default `true`. -/
def strategyFailFast : Bool := true

/-- Terminal state of one matrix job. -/
inductive UnitResult where
  | succeeded
  | unitFailed
  | cancelled
deriving DecidableEq, Repr

/-- Runs the matrix jobs under the fail-fast flag, in one admissible
schedule (job `i` finishes before job `i+1` starts).  `outcomes` gives
each job's intrinsic result were it run to completion.  With fail-fast
on, the first failure cancels every job after it; with fail-fast off,
every job runs to completion. -/
def runUnits (failFast : Bool) : List Bool → List UnitResult
  | [] => []
  | ok :: rest =>
    if ok then
      UnitResult.succeeded :: runUnits failFast rest
    else
      UnitResult.unitFailed ::
        (if failFast then rest.map (fun _ => UnitResult.cancelled)
         else runUnits failFast rest)

/-- Overall run status, per the spec's Orchestrator taxonomy. -/
inductive OverallStatus where
  | success
  | partFailure
  | allFailed
deriving DecidableEq, Repr

/-- Modelled from the spec: the Orchestrator's aggregation (§4.6) — the
workflow itself delegates this to GitHub's run status, which has no
distinct partial-failure state.  `success` iff every unit succeeded
(vacuously for no units); `partFailure` (the spec's `partialFailure`)
iff at least one succeeded and at least one did not; `allFailed`
otherwise. -/
def aggregate (results : List UnitResult) : OverallStatus :=
  if results.all (fun r => r = UnitResult.succeeded) then OverallStatus.success
  else if results.any (fun r => r = UnitResult.succeeded) then OverallStatus.partFailure
  else OverallStatus.allFailed

/-- The units actually spawned for a change set: the matrix entries
when the `if:` guard lets `build-and-push` run, none otherwise. -/
def spawnedUnits (changed : List String) : List String :=
  if buildJobRuns changed then buildMatrix changed else []

/-- The status of a whole run: when the `build-and-push` job is skipped
by its guard the run ends successfully with no units; otherwise the
spawned units run under the strategy and are aggregated.  `outcome`
gives each service's intrinsic build result. -/
def overallRun (changed : List String) (outcome : String → Bool) : OverallStatus :=
  if buildJobRuns changed then
    aggregate (runUnits strategyFailFast ((buildMatrix changed).map outcome))
  else
    OverallStatus.success

/-! ### Helper lemmas -/

/-- A list filtered by a pointwise-false predicate is empty. -/
lemma filter_eq_nil_of_false {α : Type} (p : α → Bool) :
    ∀ l : List α, (∀ a ∈ l, p a = false) → l.filter p = []
  | [], _ => rfl
  | a :: l, h => by
    have ha := h a (List.mem_cons_self a l)
    simp [List.filter, ha,
      filter_eq_nil_of_false p l (fun x hx => h x (List.mem_cons_of_mem a hx))]

/-- `any` over a pointwise-false predicate is false. -/
lemma any_eq_false_of_false {α : Type} (f : α → Bool) :
    ∀ l : List α, (∀ a ∈ l, f a = false) → l.any f = false
  | [], _ => rfl
  | a :: l, h => by
    have ha := h a (List.mem_cons_self a l)
    simp [List.any, ha,
      any_eq_false_of_false f l (fun x hx => h x (List.mem_cons_of_mem a hx))]

/-- Filtering by pointwise-equal predicates gives the same list. -/
lemma filter_congr_fun {α : Type} (p q : α → Bool) (h : ∀ a, p a = q a) :
    ∀ l : List α, l.filter p = l.filter q
  | [] => rfl
  | a :: l => by simp [List.filter, h a, filter_congr_fun p q h l]

/-- `any` is invariant under permutation of the list. -/
lemma any_congr_of_perm {α : Type} (f : α → Bool) {l₁ l₂ : List α}
    (h : l₁.Perm l₂) : l₁.any f = l₂.any f := by
  induction h with
  | nil => rfl
  | cons a _ ih => simp [List.any_cons, ih]
  | swap a b l => simp [List.any_cons, Bool.or_left_comm]
  | trans _ _ ih₁ ih₂ => exact ih₁.trans ih₂

/-- Two initial segments of the same list are comparable: one is an
initial segment of the other. -/
lemma listStarts_total : ∀ (a b p : List Char),
    listStarts a p = true → listStarts b p = true →
    listStarts a b = true ∨ listStarts b a = true
  | [], _, _, _, _ => Or.inl rfl
  | _ :: _, [], _, _, _ => Or.inr rfl
  | _ :: _, _ :: _, [], ha, _ => by simp [listStarts] at ha
  | a :: as, b :: bs, c :: cs, ha, hb => by
    simp only [listStarts, Bool.and_eq_true, beq_iff_eq] at ha hb
    obtain ⟨hac, ha'⟩ := ha
    obtain ⟨hbc, hb'⟩ := hb
    subst hac
    subst hbc
    rcases listStarts_total as bs cs ha' hb' with h | h
    · exact Or.inl (by simp [listStarts, h])
    · exact Or.inr (by simp [listStarts, h])

/-- If neither of two strings is an initial segment of the other, no
string starts with both. -/
lemma strStarts_excl (a b : String)
    (hab : listStarts a.data b.data = false) (hba : listStarts b.data a.data = false)
    (p : String) (hb : strStarts b p = true) : strStarts a p = false := by
  cases h : strStarts a p
  · rfl
  · rcases listStarts_total a.data b.data p.data h hb with h' | h' <;> simp_all [strStarts]

/-- If the build matrix is empty the serialized matrix is the
empty-matrix literal, so the `if:` guard skips the job. -/
lemma buildJobRuns_eq_false_of_empty (changed : List String)
    (h : buildMatrix changed = []) : buildJobRuns changed = false := by
  unfold buildJobRuns matrixJson
  rw [h]
  decide

/-! ### Claim theorems -/

/-- C1: a registry entry appears in the build matrix iff some changed
path begins with the entry's path followed by the separator `/`; a mere
string prefix without the separator never causes inclusion. -/
theorem matrix_membership_iff_separator_prefix
    (changed : List String) (dir : String) (hdir : dir ∈ pathRegistry) :
    dir ∈ buildMatrix changed ↔ ∃ p ∈ changed, strStarts (dir ++ "/") p = true := by
  unfold buildMatrix dirMatches
  rw [List.mem_filter]
  simp [hdir, List.any_eq_true]

theorem matrix_membership_iff_separator_prefix_case :
    ("src/cartservice" ∈ pathRegistry) ∧
    ("src/cartservice" ∈ buildMatrix ["src/cartservice-extra/x"] ↔
      ∃ p ∈ ["src/cartservice-extra/x"], strStarts ("src/cartservice" ++ "/") p = true) :=
  ⟨by decide,
   matrix_membership_iff_separator_prefix ["src/cartservice-extra/x"] "src/cartservice"
     (by decide)⟩

/-- C3 (counterexample): in the concrete change set matching both
`src/frontend` and `src/cartservice`, with a file system holding only
`src/cartservice/Dockerfile`, descriptor resolution fails for
`src/frontend` at both locations — and that failure is not contained to
that service: under the workflow's default fail-fast strategy the
cartservice unit, whose descriptor would resolve, is cancelled. -/
theorem descriptor_missing_cancels_sibling_counterexample :
    buildMatrix ["src/frontend/a.go", "src/cartservice/b.cs"] =
      ["src/frontend", "src/cartservice"] ∧
    resolveDescriptor (fun p => p == "src/cartservice/Dockerfile") "src/frontend" = none ∧
    resolveDescriptor (fun p => p == "src/cartservice/Dockerfile") "src/cartservice" =
      some ⟨"src/cartservice/Dockerfile", "src/cartservice"⟩ ∧
    runUnits strategyFailFast
        ((buildMatrix ["src/frontend/a.go", "src/cartservice/b.cs"]).map
          (fun s => (resolveDescriptor (fun p => p == "src/cartservice/Dockerfile") s).isSome)) =
      [UnitResult.unitFailed, UnitResult.cancelled] := by
  decide

/-- C3 (amended): descriptor resolution tries `service/Dockerfile`
first with context `service`; only if it is absent it falls back to
`service/src/Dockerfile` with context `service/src`; when both exist the
root one wins; when neither exists resolution fails and the unit exits —
and under the workflow's default fail-fast strategy that failure cancels
the sibling units not yet finished, rather than staying contained to
that service alone. -/
theorem descriptor_resolution_and_failure_cancels_siblings
    (fe : String → Bool) (service : String) (post : List Bool) :
    (fe (service ++ "/Dockerfile") = true →
      resolveDescriptor fe service = some ⟨service ++ "/Dockerfile", service⟩) ∧
    (fe (service ++ "/Dockerfile") = false → fe (service ++ "/src/Dockerfile") = true →
      resolveDescriptor fe service =
        some ⟨service ++ "/src/Dockerfile", service ++ "/src"⟩) ∧
    (fe (service ++ "/Dockerfile") = false → fe (service ++ "/src/Dockerfile") = false →
      resolveDescriptor fe service = none ∧
      runUnits strategyFailFast ((resolveDescriptor fe service).isSome :: post) =
        UnitResult.unitFailed :: post.map (fun _ => UnitResult.cancelled)) := by
  refine ⟨fun h => ?_, fun h1 h2 => ?_, fun h1 h2 => ?_⟩
  · simp [resolveDescriptor, h]
  · simp [resolveDescriptor, h1, h2]
  · have hnone : resolveDescriptor fe service = none := by
      simp [resolveDescriptor, h1, h2]
    refine ⟨hnone, ?_⟩
    rw [hnone]
    simp [runUnits, strategyFailFast]

theorem descriptor_resolution_and_failure_cancels_siblings_case :
    ((fun p => p == "src/adservice/Dockerfile" || p == "src/adservice/src/Dockerfile")
        ("src/adservice" ++ "/Dockerfile") = true) ∧
    resolveDescriptor
        (fun p => p == "src/adservice/Dockerfile" || p == "src/adservice/src/Dockerfile")
        "src/adservice" = some ⟨"src/adservice/Dockerfile", "src/adservice"⟩ ∧
    ((fun _ => false) ("src/frontend" ++ "/Dockerfile") = false) ∧
    (resolveDescriptor (fun _ => false) "src/frontend" = none ∧
      runUnits strategyFailFast
          ((resolveDescriptor (fun _ => false) "src/frontend").isSome :: [true]) =
        UnitResult.unitFailed :: [true].map (fun _ => UnitResult.cancelled)) :=
  ⟨by decide,
   (descriptor_resolution_and_failure_cancels_siblings
       (fun p => p == "src/adservice/Dockerfile" || p == "src/adservice/src/Dockerfile")
       "src/adservice" []).1 (by decide),
   by decide,
   (descriptor_resolution_and_failure_cancels_siblings
       (fun _ => false) "src/frontend" [true]).2.2 (by decide) (by decide)⟩

/-- C4: the build matrix is the path registry restricted to the matched
entries (a sublist of the registry, containing exactly the matched
registry entries), and permuting the changed paths never changes it. -/
theorem matrix_order_registry_and_perm_invariant
    (c₁ c₂ : List String) (h : c₁.Perm c₂) :
    List.Sublist (buildMatrix c₁) pathRegistry ∧
    (∀ d, d ∈ buildMatrix c₁ ↔ d ∈ pathRegistry ∧ dirMatches c₁ d = true) ∧
    buildMatrix c₁ = buildMatrix c₂ := by
  refine ⟨List.filter_sublist _, fun d => List.mem_filter, ?_⟩
  unfold buildMatrix
  exact filter_congr_fun _ _ (fun d => any_congr_of_perm _ h) pathRegistry

theorem matrix_order_registry_and_perm_invariant_case :
    (List.Perm ["src/paymentservice/a", "src/cartservice/b"]
       ["src/cartservice/b", "src/paymentservice/a"]) ∧
    buildMatrix ["src/paymentservice/a", "src/cartservice/b"] =
      buildMatrix ["src/cartservice/b", "src/paymentservice/a"] :=
  ⟨List.Perm.swap "src/cartservice/b" "src/paymentservice/a" [],
   (matrix_order_registry_and_perm_invariant
      ["src/paymentservice/a", "src/cartservice/b"]
      ["src/cartservice/b", "src/paymentservice/a"]
      (List.Perm.swap "src/cartservice/b" "src/paymentservice/a" [])).2.2⟩

/-- C6: a successful build produces exactly the two tags
`user/name:latest` and `user/name:(first 7 chars of head)`, where the
name is the final path segment of the service path; the commit-derived
tag is a deterministic function of the service name and head
reference. -/
theorem image_tags_shape_and_deterministic
    (user service sha s₂ h₂ : String)
    (hname : basename s₂ = basename service) (hsha : h₂ = sha) :
    imageTags user service sha =
      [user ++ "/" ++ basename service ++ ":latest",
       user ++ "/" ++ basename service ++ ":" ++ sha.take 7] ∧
    (imageTags user service sha).length = 2 ∧
    imageTags user s₂ h₂ = imageTags user service sha := by
  subst hsha
  refine ⟨rfl, rfl, ?_⟩
  unfold imageTags
  rw [hname]

theorem image_tags_shape_and_deterministic_case :
    (basename "services/frontend" = basename "src/frontend") ∧
    imageTags "koden" "services/frontend" "abcdef0123456789" =
      imageTags "koden" "src/frontend" "abcdef0123456789" :=
  ⟨by decide,
   (image_tags_shape_and_deterministic "koden" "src/frontend" "abcdef0123456789"
      "services/frontend" "abcdef0123456789" (by decide) rfl).2.2⟩

/-- C2 (counterexample): at the concrete change set matching the
services `src/frontend` and `src/cartservice`, where the frontend unit
fails and the cartservice unit would succeed, the workflow's strategy —
which leaves `fail-fast` at GitHub's default `true` — cancels the
sibling unit instead of letting it run to completion, and the run does
not aggregate to a partial failure with the sibling's image pushed. -/
theorem unit_failure_cancels_sibling_counterexample :
    buildMatrix ["src/frontend/app.go", "src/cartservice/app.cs"] =
      ["src/frontend", "src/cartservice"] ∧
    runUnits strategyFailFast [false, true] =
      [UnitResult.unitFailed, UnitResult.cancelled] ∧
    (UnitResult.cancelled ∈ runUnits strategyFailFast [false, true]) ∧
    aggregate (runUnits strategyFailFast [false, true]) ≠ OverallStatus.partFailure := by
  decide

/-- C2 (amended): under the workflow's effective fail-fast setting
(GitHub's default `true`, since the strategy block does not set it), the
units finishing before the first failure keep their success, the failing
unit fails, and every unit after the failure is cancelled rather than
run to completion. -/
theorem failfast_cancels_units_after_first_failure
    (pre post : List Bool) (hpre : ∀ b ∈ pre, b = true) :
    runUnits strategyFailFast (pre ++ false :: post) =
      pre.map (fun _ => UnitResult.succeeded) ++
        UnitResult.unitFailed :: post.map (fun _ => UnitResult.cancelled) := by
  induction pre with
  | nil => simp [runUnits, strategyFailFast]
  | cons b bs ih =>
    have hb : b = true := hpre b (List.mem_cons_self b bs)
    subst hb
    have ih' := ih (fun x hx => hpre x (List.mem_cons_of_mem _ hx))
    show UnitResult.succeeded :: runUnits strategyFailFast (bs ++ false :: post) = _
    rw [ih']
    rfl

theorem failfast_cancels_units_after_first_failure_case :
    runUnits strategyFailFast ([true] ++ false :: [true]) =
      [UnitResult.succeeded, UnitResult.unitFailed, UnitResult.cancelled] :=
  (failfast_cancels_units_after_first_failure [true] [true] (by decide)).trans (by decide)

/-- C5: when the base and head snapshots coincide the diff is empty and
so is the matrix; when no changed path lies under a watched directory
the matrix is empty; and whenever the matrix is empty the serialized
matrix equals the empty literal, the `build-and-push` job is skipped by
its guard, no unit is spawned, and the run ends in success. -/
theorem empty_matrix_short_circuits
    (files : List String) (snapshot : String → String → Option String) (r : String)
    (changed changed₂ : List String)
    (hempty : buildMatrix changed = [])
    (hout : ∀ p ∈ changed₂, ∀ dir ∈ pathRegistry, strStarts (dir ++ "/") p = false) :
    gitDiffNameOnly files snapshot r r = [] ∧
    buildMatrix (gitDiffNameOnly files snapshot r r) = [] ∧
    buildMatrix changed₂ = [] ∧
    buildJobRuns changed = false ∧
    spawnedUnits changed = [] ∧
    (∀ outcome, overallRun changed outcome = OverallStatus.success) := by
  have hdiff : gitDiffNameOnly files snapshot r r = [] :=
    filter_eq_nil_of_false _ files (fun f _ => by simp)
  have hjob : buildJobRuns changed = false := buildJobRuns_eq_false_of_empty changed hempty
  refine ⟨hdiff, ?_, ?_, hjob, ?_, ?_⟩
  · rw [hdiff]
    decide
  · refine filter_eq_nil_of_false _ _ (fun dir hdir => ?_)
    exact any_eq_false_of_false _ changed₂ (fun p hp => hout p hp dir hdir)
  · unfold spawnedUnits
    rw [hjob]
    rfl
  · intro outcome
    unfold overallRun
    rw [hjob]
    rfl

theorem empty_matrix_short_circuits_case :
    (buildMatrix ["README.md"] = []) ∧
    (∀ p ∈ ["docs/x.md"], ∀ dir ∈ pathRegistry, strStarts (dir ++ "/") p = false) ∧
    buildMatrix ["docs/x.md"] = [] ∧
    buildJobRuns ["README.md"] = false ∧
    overallRun ["README.md"] (fun _ => true) = OverallStatus.success := by
  have h := empty_matrix_short_circuits ["README.md"] (fun _ _ => none) "deadbeef"
    ["README.md"] ["docs/x.md"] (by decide) (by decide)
  exact ⟨by decide, by decide, h.2.2.1, h.2.2.2.1, h.2.2.2.2.2 (fun _ => true)⟩

/-- C7 (counterexample): pushing a commit-derived tag that the registry
already holds at a different digest is not reported as a `PushConflict`:
the push succeeds and the tag now points at the new digest — the
existing digest is silently overwritten. -/
theorem push_conflict_unreported_counterexample :
    ((fun t => if t = "koden/frontend:abc1234" then some "sha256:aaa" else none)
        "koden/frontend:abc1234" = some "sha256:aaa") ∧
    ("sha256:aaa" ≠ "sha256:bbb") ∧
    pushImage (fun t => if t = "koden/frontend:abc1234" then some "sha256:aaa" else none)
        "koden/frontend:latest" "koden/frontend:abc1234" "sha256:bbb" ≠
      Except.error PushError.pushConflict ∧
    (pushImage (fun t => if t = "koden/frontend:abc1234" then some "sha256:aaa" else none)
        "koden/frontend:latest" "koden/frontend:abc1234" "sha256:bbb").toOption.map
        (fun r => r "koden/frontend:abc1234") = some (some "sha256:bbb") := by
  refine ⟨by decide, by decide, fun h => Except.noConfusion h, rfl⟩

/-- C7 (amended): the push step points both tags — the stable and the
commit-derived one — at the newly built digest regardless of the
registry's previous contents, and always reports success; no
`PushConflict` is ever raised. -/
theorem push_always_overwrites_both_tags
    (reg : String → Option String) (latestTag shaTag digest : String) :
    (pushImage reg latestTag shaTag digest).toOption.map
        (fun r => (r latestTag, r shaTag)) = some (some digest, some digest) ∧
    (∀ e, pushImage reg latestTag shaTag digest ≠ Except.error e) := by
  constructor
  · show some ((if latestTag = latestTag ∨ latestTag = shaTag then some digest else reg latestTag),
        (if shaTag = latestTag ∨ shaTag = shaTag then some digest else reg shaTag)) =
      some (some digest, some digest)
    rw [if_pos (Or.inl rfl), if_pos (Or.inr rfl)]
  · intro e h
    exact Except.noConfusion h

/-- C8: the build reads its layer cache from `/tmp/.buildx-cache` and
writes the updated cache to the distinct staging path
`/tmp/.buildx-cache-new`, and never modifies the read location — but the
workflow has no promotion step: even after a successful build the
durable location still holds the pre-build content, which is what the
`actions/cache` post step saves, so the next run never consumes the
updated cache. -/
theorem cache_staging_never_promoted :
    cacheFromPath ≠ cacheToPath ∧
    (buildxBuildStep "updated-layers" (cacheRestoreStep (some "previous-layers"))).buildxCache =
      some "previous-layers" ∧
    (buildxBuildStep "updated-layers"
        (cacheRestoreStep (some "previous-layers"))).buildxCacheNew = some "updated-layers" ∧
    cacheSaveStep (buildxBuildStep "updated-layers" (cacheRestoreStep (some "previous-layers"))) =
      some "previous-layers" ∧
    some "previous-layers" ≠ some "updated-layers" := by
  refine ⟨by decide, rfl, rfl, rfl, by decide⟩

/-- C9 (counterexample): with invalid registry credentials the
DockerHub login step fails, but it is the fourth step of each
`build-and-push` unit, not a run-level precondition: the unit's cache
restore has already been attempted before the login failure. -/
theorem login_after_cache_counterexample :
    runSteps (stepOk false) unitSteps =
      [UnitStep.checkout, UnitStep.setupBuildx, UnitStep.cacheRestore,
       UnitStep.dockerLogin] ∧
    (UnitStep.cacheRestore ∈ runSteps (stepOk false) unitSteps) ∧
    (UnitStep.dockerLogin ∈ unitSteps) := by
  decide

/-- C9 (amended): registry authentication is validated inside each
build unit after checkout, buildx setup and cache restore; when the
credentials are invalid the unit stops at the login step, so its
build-and-push step never runs, but its cache restore was already
attempted. -/
theorem login_failure_stops_unit_before_build (loginOk : Bool) (h : loginOk = false) :
    runSteps (stepOk loginOk) unitSteps =
      [UnitStep.checkout, UnitStep.setupBuildx, UnitStep.cacheRestore,
       UnitStep.dockerLogin] ∧
    (UnitStep.buildPush ∉ runSteps (stepOk loginOk) unitSteps) ∧
    (UnitStep.cacheRestore ∈ runSteps (stepOk loginOk) unitSteps) := by
  subst h
  decide

theorem login_failure_stops_unit_before_build_case :
    (false = false) ∧ (UnitStep.buildPush ∉ runSteps (stepOk false) unitSteps) :=
  ⟨rfl, (login_failure_stops_unit_before_build false rfl).2.1⟩

/-- C10: a push whose changed paths all lie under `release/` matches
the trigger filter (so the pipeline fires), but no registry entry
matches, so the matrix is empty, the `build-and-push` job is skipped and
no unit is spawned: a release-only push never produces an image. -/
theorem release_only_push_triggers_without_building
    (changed : List String) (hne : changed ≠ [])
    (hrel : ∀ p ∈ changed, strStarts "release/" p = true) :
    triggered changed = true ∧
    buildMatrix changed = [] ∧
    buildJobRuns changed = false ∧
    spawnedUnits changed = [] := by
  have hempty : buildMatrix changed = [] := by
    refine filter_eq_nil_of_false _ _ (fun dir hdir => ?_)
    refine any_eq_false_of_false _ changed (fun p hp => ?_)
    fin_cases hdir <;>
      exact strStarts_excl _ "release/" (by decide) (by decide) p (hrel p hp)
  have hjob : buildJobRuns changed = false := buildJobRuns_eq_false_of_empty changed hempty
  refine ⟨?_, hempty, hjob, ?_⟩
  · match changed, hne with
    | q :: rest, _ =>
      unfold triggered
      rw [List.any_eq_true]
      refine ⟨q, List.mem_cons_self q rest, ?_⟩
      rw [List.any_eq_true]
      exact ⟨"release/", by decide, hrel q (List.mem_cons_self q rest)⟩
  · unfold spawnedUnits
    rw [hjob]
    rfl

theorem release_only_push_triggers_without_building_case :
    (["release/kubernetes-manifests.yaml"] ≠ ([] : List String)) ∧
    (∀ p ∈ ["release/kubernetes-manifests.yaml"], strStarts "release/" p = true) ∧
    triggered ["release/kubernetes-manifests.yaml"] = true ∧
    buildMatrix ["release/kubernetes-manifests.yaml"] = [] ∧
    buildJobRuns ["release/kubernetes-manifests.yaml"] = false := by
  have h := release_only_push_triggers_without_building
    ["release/kubernetes-manifests.yaml"] (by decide) (by decide)
  exact ⟨by decide, by decide, h.1, h.2.1, h.2.2.1⟩

end EboutiquePipeline
